import Mathlib

/-!
Verification of the BTP multiplexing service
(`src/crates/interledger-btp/src/service.rs`).

The development shallowly embeds the service: ILP packets, BTP frames and
WebSocket messages are inductive types; the byte-level codecs (which live in
external crates / sibling files, not in `service.rs`) are modelled from the
spec as faithful self-delimiting token codecs; the stateful multiplexer
operations (`send_request`, connection teardown, handler binding, response
delivery) are pure state-passing functions that follow the source line by
line, emitting an event trace in source statement order where ordering
matters.
-/

namespace Btp

/-- A wire token. Modelled from the spec: the BTP and ILP byte codecs are
external collaborators ("assumed available as a codec"), so the byte string
is modelled as a stream of self-delimiting tokens rather than raw octets. -/
inductive Wire
  | nat (n : Nat)
  | str (s : String)
deriving DecidableEq, Repr

/-- ILP Prepare packet. Modelled from the spec: the `interledger-packet`
crate is not under `src/`; the fields carried here ride along opaquely. -/
structure Prepare where
  amount : Nat
  destination : String
  data : List Nat
deriving DecidableEq, Repr

/-- ILP Fulfill packet. Modelled from the spec (external crate). -/
structure Fulfill where
  fulfillment : List Nat
  data : List Nat
deriving DecidableEq, Repr

/-- ILP Reject packet. Modelled from the spec (external crate); `code` is
the three-character ILP error code string. -/
structure Reject where
  code : String
  message : String
  triggeredBy : String
  data : List Nat
deriving DecidableEq, Repr

/-- `ErrorCode::T00_INTERNAL_ERROR` of the external `interledger-packet`
crate, modelled by its three-character wire string. -/
def T00_INTERNAL_ERROR : String := "T00"

/-- `Packet` of the `interledger-packet` crate: Prepare, Fulfill or Reject. -/
inductive Packet
  | prepare (p : Prepare)
  | fulfill (f : Fulfill)
  | reject (r : Reject)
deriving DecidableEq, Repr

/-- Length-prefixed encoding of a byte list (modelled codec helper). -/
def encNats (xs : List Nat) : List Wire :=
  Wire.nat xs.length :: xs.map Wire.nat

/-- Decode exactly `n` numeric tokens, returning them with the remainder. -/
def decNatsAux : Nat → List Wire → Option (List Nat × List Wire)
  | 0, rest => some ([], rest)
  | n + 1, Wire.nat b :: rest =>
      match decNatsAux n rest with
      | some (xs, r) => some (b :: xs, r)
      | none => none
  | _ + 1, _ => none

/-- Decode a length-prefixed byte list, returning it with the remainder. -/
def decNats : List Wire → Option (List Nat × List Wire)
  | Wire.nat n :: rest => decNatsAux n rest
  | _ => none

theorem decNatsAux_enc (xs : List Nat) (rest : List Wire) :
    decNatsAux xs.length (xs.map Wire.nat ++ rest) = some (xs, rest) := by
  induction xs with
  | nil => simp [decNatsAux]
  | cons b xs ih => simp [decNatsAux, ih]

theorem decNats_enc (xs : List Nat) (rest : List Wire) :
    decNats (encNats xs ++ rest) = some (xs, rest) := by
  simp [encNats, decNats, decNatsAux_enc]

/-- ILP packet encoder. Modelled from the spec: tag 12 = Prepare,
13 = Fulfill, 14 = Reject (the ILP packet-type octets), fields in order. -/
def ilpToBytes : Packet → List Wire
  | Packet.prepare p =>
      Wire.nat 12 :: Wire.nat p.amount :: Wire.str p.destination :: encNats p.data
  | Packet.fulfill f =>
      Wire.nat 13 :: (encNats f.fulfillment ++ encNats f.data)
  | Packet.reject r =>
      Wire.nat 14 :: Wire.str r.code :: Wire.str r.message ::
        Wire.str r.triggeredBy :: encNats r.data

/-- ILP packet decoder (`Packet::try_from`). Modelled from the spec:
inverse of `ilpToBytes`, rejecting trailing garbage. -/
def ilpFromBytes (w : List Wire) : Option Packet :=
  match w with
  | Wire.nat 12 :: Wire.nat amount :: Wire.str dest :: rest =>
      match decNats rest with
      | some (data, []) => some (Packet.prepare ⟨amount, dest, data⟩)
      | _ => none
  | Wire.nat 13 :: rest =>
      match decNats rest with
      | some (ful, rest2) =>
          match decNats rest2 with
          | some (data, []) => some (Packet.fulfill ⟨ful, data⟩)
          | _ => none
      | none => none
  | Wire.nat 14 :: Wire.str code :: Wire.str msg :: Wire.str trig :: rest =>
      match decNats rest with
      | some (data, []) => some (Packet.reject ⟨code, msg, trig, data⟩)
      | _ => none
  | _ => none

theorem decNats_enc_nil (xs : List Nat) :
    decNats (encNats xs) = some (xs, []) := by
  simpa using decNats_enc xs []

theorem ilpFromBytes_ilpToBytes (p : Packet) :
    ilpFromBytes (ilpToBytes p) = some p := by
  cases p with
  | prepare p =>
      cases p with
      | mk amount dest data =>
          simp [ilpToBytes, ilpFromBytes, decNats_enc_nil]
  | fulfill f =>
      cases f with
      | mk ful data =>
          simp [ilpToBytes, ilpFromBytes, decNats_enc, decNats_enc_nil]
  | reject r =>
      cases r with
      | mk code msg trig data =>
          simp [ilpToBytes, ilpFromBytes, decNats_enc_nil]

/-- `ContentType` of the BTP protocol-data entry (external `packet.rs`). -/
inductive ContentType
  | applicationOctetStream
  | textPlainUtf8
deriving DecidableEq, Repr

/-- Numeric wire code of a content type (modelled codec helper). -/
def ContentType.code : ContentType → Nat
  | ContentType.applicationOctetStream => 0
  | ContentType.textPlainUtf8 => 1

/-- Inverse of `ContentType.code` (modelled codec helper). -/
def ContentType.ofCode : Nat → Option ContentType
  | 0 => some ContentType.applicationOctetStream
  | 1 => some ContentType.textPlainUtf8
  | _ => none

/-- A BTP protocol-data entry `{name, content_type, payload}` (`packet.rs`,
shape given in the spec). The payload is a byte string, here a token list. -/
structure ProtocolData where
  protocol_name : String
  content_type : ContentType
  data : List Wire
deriving DecidableEq, Repr

/-- Common shape of the three BTP frame kinds: the spec gives each as
`{request_id: u32, protocol_data: [{name, content_type, bytes}]}`. -/
structure BtpFrameData where
  request_id : Nat
  protocol_data : List ProtocolData
deriving DecidableEq, Repr

/-- `BtpPacket` of `packet.rs`: a Message, Response or Error frame. -/
inductive BtpPacket
  | message (m : BtpFrameData)
  | response (r : BtpFrameData)
  | btpError (e : BtpFrameData)
deriving DecidableEq, Repr

/-- Length-prefixed splice of an embedded token list (modelled codec). -/
def encWires (xs : List Wire) : List Wire :=
  Wire.nat xs.length :: xs

/-- Split off exactly `n` tokens, returning them with the remainder. -/
def splitAtExact : Nat → List Wire → Option (List Wire × List Wire)
  | 0, rest => some ([], rest)
  | n + 1, x :: rest =>
      match splitAtExact n rest with
      | some (a, b) => some (x :: a, b)
      | none => none
  | _ + 1, [] => none

theorem splitAtExact_append (xs rest : List Wire) :
    splitAtExact xs.length (xs ++ rest) = some (xs, rest) := by
  induction xs with
  | nil => simp [splitAtExact]
  | cons x xs ih => simp [splitAtExact, ih]

/-- Decode a length-prefixed embedded token list (modelled codec). -/
def decWires : List Wire → Option (List Wire × List Wire)
  | Wire.nat n :: rest => splitAtExact n rest
  | _ => none

theorem decWires_enc (xs rest : List Wire) :
    decWires (encWires xs ++ rest) = some (xs, rest) := by
  simp [encWires, decWires, splitAtExact_append]

/-- Encode one protocol-data entry (modelled codec). -/
def protocolDataToBytes (pd : ProtocolData) : List Wire :=
  Wire.str pd.protocol_name :: Wire.nat pd.content_type.code :: encWires pd.data

/-- Decode one protocol-data entry, returning it with the remainder. -/
def protocolDataFromBytes : List Wire → Option (ProtocolData × List Wire)
  | Wire.str nm :: Wire.nat ct :: rest =>
      match ContentType.ofCode ct with
      | some contentType =>
          match decWires rest with
          | some (data, rest2) => some (⟨nm, contentType, data⟩, rest2)
          | none => none
      | none => none
  | _ => none

theorem protocolDataFromBytes_enc (pd : ProtocolData) (rest : List Wire) :
    protocolDataFromBytes (protocolDataToBytes pd ++ rest) = some (pd, rest) := by
  cases pd with
  | mk nm ct data =>
      cases ct <;>
        simp [protocolDataToBytes, protocolDataFromBytes, ContentType.code,
          ContentType.ofCode, decWires_enc]

/-- Encode a sequence of protocol-data entries back to back. -/
def encodeEach : List ProtocolData → List Wire
  | [] => []
  | pd :: rest => protocolDataToBytes pd ++ encodeEach rest

/-- Decode exactly `n` protocol-data entries. -/
def decodeEach : Nat → List Wire → Option (List ProtocolData × List Wire)
  | 0, rest => some ([], rest)
  | n + 1, w =>
      match protocolDataFromBytes w with
      | some (pd, rest) =>
          match decodeEach n rest with
          | some (pds, rest2) => some (pd :: pds, rest2)
          | none => none
      | none => none

theorem decodeEach_enc (pds : List ProtocolData) (rest : List Wire) :
    decodeEach pds.length (encodeEach pds ++ rest) = some (pds, rest) := by
  induction pds with
  | nil => simp [encodeEach, decodeEach]
  | cons pd pds ih =>
      simp [encodeEach, decodeEach, List.append_assoc,
        protocolDataFromBytes_enc, ih]

/-- `BtpPacket::to_bytes` (external `packet.rs`). Modelled from the spec:
type octet 6 = Message, 1 = Response, 2 = Error (the BTP packet-type ids),
then `request_id` and the count-prefixed protocol-data sequence. -/
def btpToBytes : BtpPacket → List Wire
  | BtpPacket.message m =>
      Wire.nat 6 :: Wire.nat m.request_id ::
        Wire.nat m.protocol_data.length :: encodeEach m.protocol_data
  | BtpPacket.response r =>
      Wire.nat 1 :: Wire.nat r.request_id ::
        Wire.nat r.protocol_data.length :: encodeEach r.protocol_data
  | BtpPacket.btpError e =>
      Wire.nat 2 :: Wire.nat e.request_id ::
        Wire.nat e.protocol_data.length :: encodeEach e.protocol_data

/-- `BtpPacket::from_bytes` (external `packet.rs`). Modelled from the spec:
inverse of `btpToBytes`, failing (like the source's `ParseError`) on
anything else. -/
def btpFromBytes (w : List Wire) : Except Unit BtpPacket :=
  match w with
  | Wire.nat t :: Wire.nat rid :: Wire.nat n :: rest =>
      match decodeEach n rest with
      | some (pds, []) =>
          match t with
          | 6 => Except.ok (BtpPacket.message ⟨rid, pds⟩)
          | 1 => Except.ok (BtpPacket.response ⟨rid, pds⟩)
          | 2 => Except.ok (BtpPacket.btpError ⟨rid, pds⟩)
          | _ => Except.error ()
      | _ => Except.error ()
  | _ => Except.error ()

theorem decodeEach_enc_nil (pds : List ProtocolData) :
    decodeEach pds.length (encodeEach pds) = some (pds, []) := by
  simpa using decodeEach_enc pds []

theorem btpFromBytes_btpToBytes (f : BtpPacket) :
    btpFromBytes (btpToBytes f) = Except.ok f := by
  cases f with
  | message m =>
      cases m with
      | mk rid pds => simp [btpToBytes, btpFromBytes, decodeEach_enc_nil]
  | response r =>
      cases r with
      | mk rid pds => simp [btpToBytes, btpFromBytes, decodeEach_enc_nil]
  | btpError e =>
      cases e with
      | mk rid pds => simp [btpToBytes, btpFromBytes, decodeEach_enc_nil]

/-- A WebSocket `Message` (tungstenite). Only the binary / non-binary
distinction matters to `service.rs`; `text` and `close` stand for the
non-binary variants. -/
inductive Message
  | binary (data : List Wire)
  | text (s : String)
  | close
deriving DecidableEq, Repr

/-- `Message::binary` constructor alias used by `ilp_packet_to_ws_message`. -/
def Message.mkBinary (data : List Wire) : Message := Message.binary data

/-- `parse_ilp_packet` (`service.rs` lines 284-323): decode a WebSocket
message into `(request_id, ILP packet)`. Non-binary messages, outer-frame
parse failures, BTP Error frames, frames without an `"ilp"` protocol-data
entry, and undecodable ILP payloads all yield `Err(())`. -/
def parse_ilp_packet (message : Message) : Except Unit (Nat × Packet) :=
  match message with
  | Message.binary data =>
      match btpFromBytes data with
      | Except.ok (BtpPacket.message m) =>
          match m.protocol_data.find? (fun proto => proto.protocol_name == "ilp") with
          | some proto =>
              match ilpFromBytes proto.data with
              | some packet => Except.ok (m.request_id, packet)
              | none => Except.error ()
          | none => Except.error ()
      | Except.ok (BtpPacket.response r) =>
          match r.protocol_data.find? (fun proto => proto.protocol_name == "ilp") with
          | some proto =>
              match ilpFromBytes proto.data with
              | some packet => Except.ok (r.request_id, packet)
              | none => Except.error ()
          | none => Except.error ()
      | Except.ok (BtpPacket.btpError _) => Except.error ()
      | Except.error _ => Except.error ()
  | _ => Except.error ()

/-- `ilp_packet_to_ws_message` (`service.rs` lines 325-364): wrap a Prepare
in a BTP Message, a Fulfill or Reject in a BTP Response, each with the
single protocol-data entry `{"ilp", application/octet-stream, payload}`. -/
def ilp_packet_to_ws_message (request_id : Nat) (packet : Packet) : Message :=
  match packet with
  | Packet.prepare p =>
      Message.mkBinary (btpToBytes (BtpPacket.message
        { request_id := request_id,
          protocol_data := [{ protocol_name := "ilp",
                              content_type := ContentType.applicationOctetStream,
                              data := ilpToBytes (Packet.prepare p) }] }))
  | Packet.fulfill f =>
      Message.mkBinary (btpToBytes (BtpPacket.response
        { request_id := request_id,
          protocol_data := [{ protocol_name := "ilp",
                              content_type := ContentType.applicationOctetStream,
                              data := ilpToBytes (Packet.fulfill f) }] }))
  | Packet.reject r =>
      Message.mkBinary (btpToBytes (BtpPacket.response
        { request_id := request_id,
          protocol_data := [{ protocol_name := "ilp",
                              content_type := ContentType.applicationOctetStream,
                              data := ilpToBytes (Packet.reject r) }] }))

/-- C4: For every request id and every ILP packet (Prepare, Fulfill or
Reject), decoding the WebSocket message produced by encoding returns
exactly the original pair:
`parse_ilp_packet (ilp_packet_to_ws_message id packet) = Ok (id, packet)`. -/
theorem parse_ilp_packet_roundtrip (id : Nat) (packet : Packet) :
    parse_ilp_packet (ilp_packet_to_ws_message id packet) =
      Except.ok (id, packet) := by
  cases packet with
  | prepare p =>
      simp [ilp_packet_to_ws_message, Message.mkBinary, parse_ilp_packet,
        btpFromBytes_btpToBytes, List.find?, ilpFromBytes_ilpToBytes]
  | fulfill f =>
      simp [ilp_packet_to_ws_message, Message.mkBinary, parse_ilp_packet,
        btpFromBytes_btpToBytes, List.find?, ilpFromBytes_ilpToBytes]
  | reject r =>
      simp [ilp_packet_to_ws_message, Message.mkBinary, parse_ilp_packet,
        btpFromBytes_btpToBytes, List.find?, ilpFromBytes_ilpToBytes]

/-- `A::AccountId`: opaque, hashable, equality-comparable; modelled by `Nat`. -/
abbrev AccountId := Nat

/-- Value stored in the Sessions Map: the `UnboundedSender<Message>` handle
of one connection. `token` models the identity of the underlying channel
(each `add_connection` creates a fresh one); `closed` models whether the
receiver end is gone (so `unbounded_send` fails); `frames` are the messages
queued so far, in push order. -/
structure SessionQueue where
  token : Nat
  closed : Bool
  frames : List Message
deriving DecidableEq, Repr

/-- Lookup in a hash map modelled as an association list (first match). -/
def mapLookup {β : Type} (m : List (AccountId × β)) (k : AccountId) : Option β :=
  (m.find? (fun p => p.1 == k)).map (fun p => p.2)

/-- `HashMap::remove`: drop every binding of the key. -/
def mapRemove {β : Type} (m : List (AccountId × β)) (k : AccountId) :
    List (AccountId × β) :=
  m.filter (fun p => p.1 != k)

/-- `HashMap::insert`: bind the key, replacing any previous binding. -/
def mapInsert {β : Type} (m : List (AccountId × β)) (k : AccountId) (v : β) :
    List (AccountId × β) :=
  (k, v) :: mapRemove m k

theorem mapLookup_remove_self {β : Type} (m : List (AccountId × β))
    (k : AccountId) : mapLookup (mapRemove m k) k = none := by
  induction m with
  | nil => rfl
  | cons p m ih =>
      by_cases h : p.1 = k
      · have hr : mapRemove (p :: m) k = mapRemove m k := by
          simp [mapRemove, h]
        rw [hr]; exact ih
      · have hr : mapRemove (p :: m) k = p :: mapRemove m k := by
          simp [mapRemove, h]
        rw [hr, mapLookup]
        simp only [List.find?]
        have hne : (p.1 == k) = false := by simpa using h
        rw [hne]
        exact ih

/-- The Sessions Map `connections: HashMap<A::AccountId, UnboundedSender<Message>>`. -/
abbrev SessionsMap := List (AccountId × SessionQueue)

/-- `service.rs` line 127: `self.connections.write().insert(account_id, tx)`.
Inserting a new session for an account replaces the previous binding. -/
def add_connection_insert (connections : SessionsMap) (account_id : AccountId)
    (tx : SessionQueue) : SessionsMap :=
  mapInsert connections account_id tx

/-- `service.rs` lines 112-123: the `handle_connection` continuation that
runs when either session task terminates. It executes
`connections.remove(&account_id)` — unconditionally, with no check that the
entry still belongs to the terminating session. -/
def handle_connection_teardown (connections : SessionsMap)
    (account_id : AccountId) : SessionsMap :=
  mapRemove connections account_id

/-- The multiplexer's shared state: the Sessions Map and the Correlation
Table (`pending_outgoing`), the latter modelled by its set of registered
request ids (the values are one-shot sender handles). -/
structure MuxState where
  connections : SessionsMap
  pending_outgoing : List Nat
deriving DecidableEq, Repr

/-- `HashMap::insert` on the Correlation Table's key set. -/
def pendingInsert (ids : List Nat) (id : Nat) : List Nat :=
  id :: ids.filter (fun i => i != id)

/-- Membership test on the Correlation Table's key set. -/
def pendingContains (ids : List Nat) (id : Nat) : Bool :=
  ids.contains id

/-- `OutgoingRequest<A>`: the target account and the Prepare. The source
field is named `to` (a reserved word here); `toAccount` stands for
`request.to.id()`. -/
structure OutgoingRequest where
  toAccount : AccountId
  prepare : Prepare
deriving DecidableEq, Repr

/-- `RejectBuilder { code: T00_INTERNAL_ERROR, message: &[], triggered_by:
&[], data: &[] }.build()` (`service.rs` lines 205-211 and 221-227). -/
def t00Reject : Reject :=
  { code := T00_INTERNAL_ERROR, message := "", triggeredBy := "", data := [] }

/-- The future `send_request` returns, by shape: awaiting a one-shot slot,
an immediate `err(reject)`, or the upstream service's future verbatim. -/
inductive SendOutcome
  | futureAwait (request_id : Nat)
  | futureReject (r : Reject)
  | futureDelegated (request : OutgoingRequest)
deriving DecidableEq, Repr

/-- Observable steps of one `send_request` call, in source statement order. -/
inductive SendEvent
  | idAllocated (request_id : Nat)
  | framePushed (target : AccountId) (message : Message)
  | slotRegistered (request_id : Nat)
  | sendFailed (request_id : Nat)
  | delegatedUpstream (request : OutgoingRequest)
deriving DecidableEq, Repr

/-- `BtpOutgoingService::send_request` (`service.rs` lines 191-238).
`request_id` is the value `random::<u32>()` would return (the allocation
itself is recorded as an event). The source looks up the session, allocates
the id, calls `unbounded_send` with the encoded frame, and only on `Ok`
creates the one-shot channel and inserts the sender into
`pending_outgoing`; on `Err` it returns an immediate `T00` Reject; with no
session it forwards the request to `next_outgoing` and returns that future. -/
def send_request (st : MuxState) (request_id : Nat)
    (request : OutgoingRequest) : MuxState × SendOutcome × List SendEvent :=
  match mapLookup st.connections request.toAccount with
  | some connection =>
      let message := ilp_packet_to_ws_message request_id
        (Packet.prepare request.prepare)
      if connection.closed then
        (st, SendOutcome.futureReject t00Reject,
          [SendEvent.idAllocated request_id, SendEvent.sendFailed request_id])
      else
        ({ connections := mapInsert st.connections request.toAccount
             { connection with frames := connection.frames ++ [message] },
           pending_outgoing := pendingInsert st.pending_outgoing request_id },
         SendOutcome.futureAwait request_id,
         [SendEvent.idAllocated request_id,
          SendEvent.framePushed request.toAccount message,
          SendEvent.slotRegistered request_id])
  | none =>
      (st, SendOutcome.futureDelegated request,
        [SendEvent.delegatedUpstream request])

/-- The future built around the one-shot receiver (`service.rs` lines
202-217): `receiver.map_err(|_| T00 reject).and_then(identity on the
result)`. `none` is `oneshot::Canceled` — the sender was dropped without a
value. -/
def resolve_outgoing_future (slot : Option (Except Reject Fulfill)) :
    Except Reject Fulfill :=
  match slot with
  | none => Except.error t00Reject
  | some (Except.ok fulfill) => Except.ok fulfill
  | some (Except.error reject) => Except.error reject

/-- Outcome of a call that may hit a Rust `panic!` (an `expect`). -/
inductive CallOutcome (β : Type)
  | ok (b : β)
  | panicked (msg : String)
deriving DecidableEq, Repr

/-- The `UnboundedReceiver<(A, u32, Prepare)>` handle held in
`pending_incoming`; opaque to the claims, modelled by `Nat`. -/
abbrev IncomingRequestBuffer := Nat

/-- The state step of `BtpOutgoingService::handle_incoming` (`service.rs`
lines 140-144): `self.pending_incoming.lock().take().expect("handle_incoming
can only be called once")`. Taking the buffered receiver leaves `none`; a
second call finds `none` and the `expect` panics. -/
def handle_incoming_take (pending_incoming : Option IncomingRequestBuffer) :
    CallOutcome (IncomingRequestBuffer × Option IncomingRequestBuffer) :=
  match pending_incoming with
  | some buffer => CallOutcome.ok (buffer, none)
  | none => CallOutcome.panicked "handle_incoming can only be called once"

/-- The response-delivery step of the task spawned by `handle_incoming`
(`service.rs` lines 153-173): once the handler's result is ready, encode it
as a Fulfill or Reject frame with the same request id, then
`connections.read().get(&account_id).expect("No connection for account
(something very strange has happened)")` and `unbounded_send` it; a failed
send is logged and the response dropped, but a missing entry panics. -/
def handle_incoming_response_delivery (connections : SessionsMap)
    (account_id : AccountId) (request_id : Nat)
    (result : Except Reject Fulfill) : CallOutcome SessionsMap :=
  let packet := match result with
    | Except.ok fulfill => Packet.fulfill fulfill
    | Except.error reject => Packet.reject reject
  let message := ilp_packet_to_ws_message request_id packet
  match mapLookup connections account_id with
  | none =>
      CallOutcome.panicked
        "No connection for account (something very strange has happened)"
  | some connection =>
      if connection.closed then
        CallOutcome.ok connections
      else
        CallOutcome.ok (mapInsert connections account_id
          { connection with frames := connection.frames ++ [message] })

/-- `true` on the events of `send_request` that push a frame onto a
session's outbound queue. -/
def isFramePushed : SendEvent → Bool
  | SendEvent.framePushed _ _ => true
  | _ => false

/-- Prefix of a `send_request` trace up to (excluding) the first push:
everything that has already happened at the moment the frame is pushed. -/
def takeUntilPush (trace : List SendEvent) : List SendEvent :=
  trace.takeWhile (fun e => !(isFramePushed e))

/-- The ordering stated by the spec for `send_request` (claim C3): when the
target account has a session, the one-shot slot is registered in the
Correlation Table before the frame is pushed, i.e. the registration event
already lies in the trace prefix preceding the push. -/
def spec_slot_registered_before_push : Prop :=
  ∀ (st : MuxState) (request_id : Nat) (request : OutgoingRequest)
    (connection : SessionQueue),
    mapLookup st.connections request.toAccount = some connection →
    connection.closed = false →
    SendEvent.slotRegistered request_id ∈
      takeUntilPush (send_request st request_id request).2.2

/-- The teardown behaviour stated by the spec (claim C2): the Sessions Map
entry is removed only if it still points to the terminating session, so an
entry installed by a newer connection survives the old session's teardown. -/
def spec_teardown_removes_only_own_entry : Prop :=
  ∀ (connections : SessionsMap) (account_id : AccountId)
    (current old : SessionQueue),
    mapLookup connections account_id = some current →
    current.token ≠ old.token →
    mapLookup (handle_connection_teardown connections account_id) account_id
      = some current

/-- Sample Prepare packet used by concrete witnesses. -/
def p0 : Prepare := { amount := 10, destination := "example.alice", data := [1, 2, 3] }

/-- Sample Fulfill packet used by concrete witnesses. -/
def f0 : Fulfill := { fulfillment := [7, 7], data := [] }

/-- Sample outgoing request (to account 0) used by concrete witnesses. -/
def req0 : OutgoingRequest := { toAccount := 0, prepare := p0 }

/-- Sample live session (token 1, queue open, nothing sent yet). -/
def q0 : SessionQueue := { token := 1, closed := false, frames := [] }

/-- Sample dead session: the receiver side of the channel is gone. -/
def q0closed : SessionQueue := { token := 1, closed := true, frames := [] }

/-- Sample newer session for the same account (token 2). -/
def q1 : SessionQueue := { token := 2, closed := false, frames := [] }

/-- C1: the code panics when the Sessions Map has no entry at response
time. With an empty Sessions Map, delivering a handler response for
account 0 hits `.expect("No connection for account (something very strange
has happened)")` instead of dropping the response with an error log — the
claim's "never panics on peer-induced conditions" fails here. -/
theorem handler_response_panics_when_session_gone :
    handle_incoming_response_delivery [] 0 1 (Except.ok f0) =
      CallOutcome.panicked
        "No connection for account (something very strange has happened)" :=
  rfl

/-- C2 counterexample: teardown removes the Sessions Map entry
unconditionally. After session 1 for account 0 is replaced by session 2,
running the old session's teardown removes session 2's entry as well,
refuting "removed only if it still points to this session". -/
theorem teardown_removes_newer_session_counterexample :
    ¬ spec_teardown_removes_only_own_entry := by
  intro h
  have h2 := h (add_connection_insert (add_connection_insert [] 0 q0) 0 q1)
    0 q1 q0 rfl (by decide)
  exact absurd h2 (by decide)

/-- C2 amended: `handle_connection` runs `connections.remove(&account_id)`
with no ownership check, so teardown always leaves the account without an
entry — even when a newer connection had replaced the terminating one. -/
theorem teardown_removes_account_entry_unconditionally
    (connections : SessionsMap) (account_id : AccountId) :
    mapLookup (handle_connection_teardown connections account_id) account_id
      = none :=
  mapLookup_remove_self connections account_id

/-- C3 counterexample: with a live session for account 0, the trace of
`send_request` contains no slot registration before the frame push — the
source calls `unbounded_send` first and inserts into `pending_outgoing`
only afterwards. -/
theorem send_request_registration_order_counterexample :
    ¬ spec_slot_registered_before_push := by
  intro h
  have h2 := h { connections := [(0, q0)], pending_outgoing := [] }
    42 req0 q0 rfl rfl
  exact absurd h2 (by decide)

/-- C3 amended: when the target account has an open session, `send_request`
allocates the id, pushes the encoded Prepare frame, and only then registers
the one-shot slot; registration does land in the Correlation Table, but at
the moment the frame is pushed the table does not yet hold the id. -/
theorem send_request_pushes_before_registering (st : MuxState)
    (request_id : Nat) (request : OutgoingRequest) (connection : SessionQueue)
    (hq : mapLookup st.connections request.toAccount = some connection)
    (hc : connection.closed = false) :
    (send_request st request_id request).2.2 =
      [SendEvent.idAllocated request_id,
       SendEvent.framePushed request.toAccount
         (ilp_packet_to_ws_message request_id (Packet.prepare request.prepare)),
       SendEvent.slotRegistered request_id] ∧
    pendingContains (send_request st request_id request).1.pending_outgoing
      request_id = true := by
  constructor
  · simp [send_request, hq, hc]
  · simp [send_request, hq, hc, pendingContains, pendingInsert]

/-- C3 amended, witness at a concrete state: account 0 has the open
session `q0`; the trace is allocate, push, register, and id 42 ends up
registered. -/
theorem send_request_pushes_before_registering_witness :
    (send_request { connections := [(0, q0)], pending_outgoing := [] }
        42 req0).2.2 =
      [SendEvent.idAllocated 42,
       SendEvent.framePushed 0 (ilp_packet_to_ws_message 42 (Packet.prepare p0)),
       SendEvent.slotRegistered 42] ∧
    pendingContains
      (send_request { connections := [(0, q0)], pending_outgoing := [] }
        42 req0).1.pending_outgoing 42 = true :=
  send_request_pushes_before_registering
    { connections := [(0, q0)], pending_outgoing := [] } 42 req0 q0 rfl rfl

/-- C5: when the target account has no session, `send_request` forwards
the unchanged request to the upstream outgoing service exactly once,
returns that future verbatim, and neither allocates a request id nor
pushes a frame nor touches any state. -/
theorem send_request_fallthrough (st : MuxState) (request_id : Nat)
    (request : OutgoingRequest)
    (h : mapLookup st.connections request.toAccount = none) :
    send_request st request_id request =
      (st, SendOutcome.futureDelegated request,
        [SendEvent.delegatedUpstream request]) := by
  simp [send_request, h]

/-- C5 witness: an empty Sessions Map delegates the sample request. -/
theorem send_request_fallthrough_witness :
    send_request { connections := [], pending_outgoing := [] } 5 req0 =
      ({ connections := [], pending_outgoing := [] },
       SendOutcome.futureDelegated req0,
       [SendEvent.delegatedUpstream req0]) :=
  send_request_fallthrough { connections := [], pending_outgoing := [] }
    5 req0 rfl

/-- C6: when the session exists but its outbound queue is closed at push
time, `send_request` resolves immediately with the built `T00` Reject
(empty message, triggered_by and data), and the Correlation Table keeps no
slot for the id (the source only inserts after a successful push). -/
theorem send_request_closed_queue (st : MuxState) (request_id : Nat)
    (request : OutgoingRequest) (connection : SessionQueue)
    (hq : mapLookup st.connections request.toAccount = some connection)
    (hc : connection.closed = true)
    (hp : pendingContains st.pending_outgoing request_id = false) :
    send_request st request_id request =
      (st, SendOutcome.futureReject t00Reject,
        [SendEvent.idAllocated request_id, SendEvent.sendFailed request_id]) ∧
    t00Reject.code = T00_INTERNAL_ERROR ∧ t00Reject.message = "" ∧
    t00Reject.triggeredBy = "" ∧ t00Reject.data = [] ∧
    pendingContains (send_request st request_id request).1.pending_outgoing
      request_id = false := by
  have hres : send_request st request_id request =
      (st, SendOutcome.futureReject t00Reject,
        [SendEvent.idAllocated request_id, SendEvent.sendFailed request_id]) := by
    simp [send_request, hq, hc]
  refine ⟨hres, rfl, rfl, rfl, rfl, ?_⟩
  rw [hres]
  exact hp

/-- C6 witness: account 0's session `q0closed` has a closed queue; request
id 9 yields the immediate `T00` Reject and stays unregistered. -/
theorem send_request_closed_queue_witness :
    send_request { connections := [(0, q0closed)], pending_outgoing := [] }
        9 req0 =
      ({ connections := [(0, q0closed)], pending_outgoing := [] },
       SendOutcome.futureReject t00Reject,
       [SendEvent.idAllocated 9, SendEvent.sendFailed 9]) ∧
    t00Reject.code = T00_INTERNAL_ERROR ∧ t00Reject.message = "" ∧
    t00Reject.triggeredBy = "" ∧ t00Reject.data = [] ∧
    pendingContains
      (send_request { connections := [(0, q0closed)], pending_outgoing := [] }
        9 req0).1.pending_outgoing 9 = false :=
  send_request_closed_queue
    { connections := [(0, q0closed)], pending_outgoing := [] }
    9 req0 q0closed rfl rfl rfl

/-- C7: when the one-shot reply slot's sender is dropped without a value
(`oneshot::Canceled`), the future built by `send_request` resolves with the
internal-error Reject, whose code is `T00_INTERNAL_ERROR`. -/
theorem slot_cancellation_resolves_t00 :
    resolve_outgoing_future none = Except.error t00Reject ∧
    t00Reject.code = T00_INTERNAL_ERROR :=
  ⟨rfl, rfl⟩

/-- C9: `handle_incoming` succeeds at most once per service: the first call
takes the buffered receiver and leaves the shared `pending_incoming` slot
empty, and a second call on the same underlying state panics via `expect`
rather than silently succeeding. -/
theorem handle_incoming_at_most_once :
    (∀ buffer : IncomingRequestBuffer,
      handle_incoming_take (some buffer) = CallOutcome.ok (buffer, none)) ∧
    handle_incoming_take none =
      CallOutcome.panicked "handle_incoming can only be called once" :=
  ⟨fun _ => rfl, rfl⟩

/-- C10: `parse_ilp_packet` treats BTP Message and BTP Response frames
identically — the result depends only on the request id and the
protocol-data sequence — and in particular a Prepare carried in a BTP
Response frame decodes successfully, although `ilp_packet_to_ws_message`
would have wrapped a Prepare in a Message frame. -/
theorem parse_treats_message_and_response_alike :
    (∀ (request_id : Nat) (pds : List ProtocolData),
      parse_ilp_packet
          (Message.binary (btpToBytes (BtpPacket.response ⟨request_id, pds⟩))) =
        parse_ilp_packet
          (Message.binary (btpToBytes (BtpPacket.message ⟨request_id, pds⟩)))) ∧
    parse_ilp_packet (Message.binary (btpToBytes (BtpPacket.response
        ⟨7, [{ protocol_name := "ilp",
               content_type := ContentType.applicationOctetStream,
               data := ilpToBytes (Packet.prepare p0) }]⟩))) =
      Except.ok (7, Packet.prepare p0) := by
  constructor
  · intro request_id pds
    simp [parse_ilp_packet, btpFromBytes_btpToBytes]
  · simp [parse_ilp_packet, btpFromBytes_btpToBytes, List.find?,
      ilpFromBytes_ilpToBytes]

/-- Whether a BTP frame is an Error frame. -/
def frameIsError : BtpPacket → Bool
  | BtpPacket.btpError _ => true
  | _ => false

/-- The `request_id` carried by a BTP frame. -/
def frameRequestId : BtpPacket → Nat
  | BtpPacket.message m => m.request_id
  | BtpPacket.response r => r.request_id
  | BtpPacket.btpError e => e.request_id

/-- The protocol-data sequence carried by a BTP frame. -/
def frameProtocolData : BtpPacket → List ProtocolData
  | BtpPacket.message m => m.protocol_data
  | BtpPacket.response r => r.protocol_data
  | BtpPacket.btpError e => e.protocol_data

/-- The frame's first protocol-data entry named `"ilp"`, exactly the lookup
`parse_ilp_packet` performs. -/
def findIlp (frame : BtpPacket) : Option ProtocolData :=
  (frameProtocolData frame).find? (fun proto => proto.protocol_name == "ilp")

/-- The failure condition of claim C8, as the claim words it: the message
is non-binary, or the BTP outer frame fails to parse, or the frame is a BTP
Error frame, or the frame has no protocol-data entry named `"ilp"`, or the
`"ilp"` payload fails to decode as an ILP packet. -/
def parse_error_condition : Message → Prop
  | Message.binary data =>
      btpFromBytes data = Except.error () ∨
      (∃ e, btpFromBytes data = Except.ok (BtpPacket.btpError e)) ∨
      (∃ frame, btpFromBytes data = Except.ok frame ∧
        frameIsError frame = false ∧ findIlp frame = none) ∨
      (∃ frame pd, btpFromBytes data = Except.ok frame ∧
        frameIsError frame = false ∧ findIlp frame = some pd ∧
        ilpFromBytes pd.data = none)
  | _ => True

/-- C8: `parse_ilp_packet` fails exactly under the claim's five conditions
(non-binary message, outer-frame parse failure, BTP Error frame, missing
`"ilp"` entry, undecodable ILP payload), and in every other case returns
the frame's `request_id` paired with the decoded packet. -/
theorem parse_ilp_packet_error_characterization (message : Message) :
    (parse_ilp_packet message = Except.error () ↔
      parse_error_condition message) ∧
    (∀ (data : List Wire) (frame : BtpPacket) (pd : ProtocolData)
      (packet : Packet),
      message = Message.binary data →
      btpFromBytes data = Except.ok frame →
      frameIsError frame = false →
      findIlp frame = some pd →
      ilpFromBytes pd.data = some packet →
      parse_ilp_packet message = Except.ok (frameRequestId frame, packet)) := by
  cases message with
  | text s =>
      refine ⟨by simp [parse_ilp_packet, parse_error_condition], ?_⟩
      intro data frame pd packet hbin
      exact absurd hbin (by simp)
  | close =>
      refine ⟨by simp [parse_ilp_packet, parse_error_condition], ?_⟩
      intro data frame pd packet hbin
      exact absurd hbin (by simp)
  | binary data =>
      cases hb : btpFromBytes data with
      | error e =>
          constructor
          · simp [parse_ilp_packet, parse_error_condition, hb]
          · intro data' frame pd packet hbin hok
            rw [Message.binary.injEq] at hbin
            subst hbin
            rw [hb] at hok
            exact absurd hok (by simp)
      | ok frame =>
          cases frame with
          | btpError e =>
              constructor
              · simp [parse_ilp_packet, parse_error_condition, hb]
              · intro data' frame' pd packet hbin hok hferr
                rw [Message.binary.injEq] at hbin
                subst hbin
                rw [hb] at hok
                rw [Except.ok.injEq] at hok
                subst hok
                exact absurd hferr (by simp [frameIsError])
          | message m =>
              cases hf : m.protocol_data.find?
                  (fun proto => proto.protocol_name == "ilp") with
              | none =>
                  constructor
                  · simp [parse_ilp_packet, parse_error_condition, hb,
                      findIlp, frameProtocolData, frameIsError, hf]
                    simpa using List.find?_eq_none.mp hf
                  · intro data' frame' pd packet hbin hok hferr hfind
                    rw [Message.binary.injEq] at hbin
                    subst hbin
                    rw [hb] at hok
                    rw [Except.ok.injEq] at hok
                    subst hok
                    rw [findIlp] at hfind
                    simp [frameProtocolData, hf] at hfind
              | some pd =>
                  cases hi : ilpFromBytes pd.data with
                  | none =>
                      constructor
                      · simp [parse_ilp_packet, parse_error_condition, hb,
                          findIlp, frameProtocolData, frameIsError, hf, hi]
                      · intro data' frame' pd' packet hbin hok hferr hfind hilp
                        rw [Message.binary.injEq] at hbin
                        subst hbin
                        rw [hb] at hok
                        rw [Except.ok.injEq] at hok
                        subst hok
                        rw [findIlp] at hfind
                        simp [frameProtocolData, hf] at hfind
                        subst hfind
                        rw [hi] at hilp
                        exact absurd hilp (by simp)
                  | some packet =>
                      constructor
                      · simp [parse_ilp_packet, parse_error_condition, hb,
                          findIlp, frameProtocolData, frameIsError, hf, hi]
                        exact ⟨pd, List.mem_of_find?_eq_some hf,
                          by simpa using List.find?_some hf⟩
                      · intro data' frame' pd' packet' hbin hok hferr hfind hilp
                        rw [Message.binary.injEq] at hbin
                        subst hbin
                        rw [hb] at hok
                        rw [Except.ok.injEq] at hok
                        subst hok
                        rw [findIlp] at hfind
                        simp [frameProtocolData, hf] at hfind
                        subst hfind
                        rw [hi] at hilp
                        rw [Option.some.injEq] at hilp
                        subst hilp
                        simp [parse_ilp_packet, hb, hf, hi, frameRequestId]
          | response r =>
              cases hf : r.protocol_data.find?
                  (fun proto => proto.protocol_name == "ilp") with
              | none =>
                  constructor
                  · simp [parse_ilp_packet, parse_error_condition, hb,
                      findIlp, frameProtocolData, frameIsError, hf]
                    simpa using List.find?_eq_none.mp hf
                  · intro data' frame' pd packet hbin hok hferr hfind
                    rw [Message.binary.injEq] at hbin
                    subst hbin
                    rw [hb] at hok
                    rw [Except.ok.injEq] at hok
                    subst hok
                    rw [findIlp] at hfind
                    simp [frameProtocolData, hf] at hfind
              | some pd =>
                  cases hi : ilpFromBytes pd.data with
                  | none =>
                      constructor
                      · simp [parse_ilp_packet, parse_error_condition, hb,
                          findIlp, frameProtocolData, frameIsError, hf, hi]
                      · intro data' frame' pd' packet hbin hok hferr hfind hilp
                        rw [Message.binary.injEq] at hbin
                        subst hbin
                        rw [hb] at hok
                        rw [Except.ok.injEq] at hok
                        subst hok
                        rw [findIlp] at hfind
                        simp [frameProtocolData, hf] at hfind
                        subst hfind
                        rw [hi] at hilp
                        exact absurd hilp (by simp)
                  | some packet =>
                      constructor
                      · simp [parse_ilp_packet, parse_error_condition, hb,
                          findIlp, frameProtocolData, frameIsError, hf, hi]
                        exact ⟨pd, List.mem_of_find?_eq_some hf,
                          by simpa using List.find?_some hf⟩
                      · intro data' frame' pd' packet' hbin hok hferr hfind hilp
                        rw [Message.binary.injEq] at hbin
                        subst hbin
                        rw [hb] at hok
                        rw [Except.ok.injEq] at hok
                        subst hok
                        rw [findIlp] at hfind
                        simp [frameProtocolData, hf] at hfind
                        subst hfind
                        rw [hi] at hilp
                        rw [Option.some.injEq] at hilp
                        subst hilp
                        simp [parse_ilp_packet, hb, hf, hi, frameRequestId]

/-- C8 witness: a non-binary WebSocket message parses to an error, by the
characterization applied at a concrete message. -/
theorem parse_ilp_packet_error_characterization_witness :
    parse_ilp_packet (Message.text "auth") = Except.error () :=
  (parse_ilp_packet_error_characterization (Message.text "auth")).1.mpr
    (by simp [parse_error_condition])

end Btp
